import Mathlib

/-!
Shallow embedding of the fs-err error-wrapping layer.

The repository is a facade over the platform filesystem API: every operation
delegates to a platform primitive and, on failure, wraps the raw `io::Error`
in a contextual error carrying an operation kind and the path(s) involved,
then re-wraps that value inside `io::Error::new(source.kind(), payload)`.

Paths (`PathBuf` / `Path::display`) are modelled as `String`.  Rust's
`io::Error` is modelled by the inductive `IoError` below: the `raw`
constructor is a plain platform error carrying only its `io::ErrorKind`;
the `single`, `dual` and `lib` constructors are `io::Error::new(kind, payload)`
with the payload fields inlined (`single` for `errors.rs::Error`, `dual` for
`errors.rs::SourceDestError`, `lib` for the historical `lib.rs::Error`, which
stores a pre-rendered message instead of a kind and path).
-/

/-- Model of `std::io::ErrorKind` (the classification tag of an `io::Error`).
Only the categories exercised by the development are listed; the code never
inspects the tag, it only copies it, so a small closed enumeration suffices. -/
inductive IoErrorKind : Type where
  | NotFound
  | PermissionDenied
  | AlreadyExists
  | InvalidInput
  | Interrupted
  | Other
deriving DecidableEq

/-- `errors.rs` `ErrorKind`: the closed enumeration of single-path operation
kinds (both cfg(unix) and cfg(windows) members are included). -/
inductive ErrorKind : Type where
  | OpenFile
  | CreateFile
  | CreateDir
  | SyncFile
  | SetLen
  | Metadata
  | Clone
  | SetPermissions
  | Read
  | Seek
  | Write
  | Flush
  | ReadDir
  | RemoveFile
  | RemoveDir
  | Canonicalize
  | ReadLink
  | SymlinkMetadata
  | FileExists
  | SeekRead
  | SeekWrite
  | ReadAt
  | WriteAt
deriving DecidableEq

/-- `errors.rs` `SourceDestErrorKind`: operation kinds for dual-path
operations (both cfg(unix) and cfg(windows) members are included). -/
inductive SourceDestErrorKind : Type where
  | Copy
  | HardLink
  | Rename
  | SoftLink
  | Symlink
  | SymlinkDir
  | SymlinkFile
deriving DecidableEq

/-- Model of `std::io::Error`.  `raw k` is a plain platform error of kind `k`;
the other constructors are `io::Error::new(ioKind, payload)` with the payload
structure fields inlined:
`single ioKind kind source path` holds an `errors.rs::Error`,
`dual ioKind kind source fromPath toPath` holds an `errors.rs::SourceDestError`,
`lib ioKind source message` holds a `lib.rs::Error` (v1.0.1 snapshot). -/
inductive IoError : Type where
  | raw (kind : IoErrorKind)
  | single (ioKind : IoErrorKind) (kind : ErrorKind) (source : IoError) (path : String)
  | dual (ioKind : IoErrorKind) (kind : SourceDestErrorKind) (source : IoError)
      (fromPath toPath : String)
  | lib (ioKind : IoErrorKind) (source : IoError) (message : String)
deriving DecidableEq

/-- `io::Error::kind()`: the classification tag of the error. -/
def IoError.kind : IoError → IoErrorKind
  | .raw k => k
  | .single k _ _ _ => k
  | .dual k _ _ _ _ => k
  | .lib k _ _ => k

/-- `errors.rs` `Error::build` (called `Error::new` in the `file.rs`
snapshot): wraps a raw error with an operation kind and a path, then
re-wraps inside `io::Error::new(source.kind(), ...)`. -/
def Error.build (source : IoError) (kind : ErrorKind) (path : String) : IoError :=
  .single source.kind kind source path

/-- `errors.rs` `SourceDestError::build`: wraps a raw error with a dual-path
operation kind and the two paths, re-wrapped inside
`io::Error::new(source.kind(), ...)`. -/
def SourceDestError.build (source : IoError) (kind : SourceDestErrorKind)
    (fromPath toPath : String) : IoError :=
  .dual source.kind kind source fromPath toPath

/-- `errors.rs` `impl fmt::Display for Error`: the message template selected
by the operation kind, applied to the stored path. -/
def ErrorKind.message : ErrorKind → String → String
  | .OpenFile, path => "failed to open file `" ++ path ++ "`"
  | .CreateFile, path => "failed to create file `" ++ path ++ "`"
  | .CreateDir, path => "failed to create directory `" ++ path ++ "`"
  | .SyncFile, path => "failed to sync file `" ++ path ++ "`"
  | .SetLen, path => "failed to set length of file `" ++ path ++ "`"
  | .Metadata, path => "failed to query metadata of file `" ++ path ++ "`"
  | .Clone, path => "failed to clone handle for file `" ++ path ++ "`"
  | .SetPermissions, path => "failed to set permissions for file `" ++ path ++ "`"
  | .Read, path => "failed to read from file `" ++ path ++ "`"
  | .Seek, path => "failed to seek in file `" ++ path ++ "`"
  | .Write, path => "failed to write to file `" ++ path ++ "`"
  | .Flush, path => "failed to flush file `" ++ path ++ "`"
  | .ReadDir, path => "failed to read directory `" ++ path ++ "`"
  | .RemoveFile, path => "failed to remove file `" ++ path ++ "`"
  | .RemoveDir, path => "failed to remove directory `" ++ path ++ "`"
  | .Canonicalize, path => "failed to canonicalize path `" ++ path ++ "`"
  | .ReadLink, path => "failed to read symbolic link `" ++ path ++ "`"
  | .SymlinkMetadata, path => "failed to query metadata of symlink `" ++ path ++ "`"
  | .FileExists, path => "failed to check file existance `" ++ path ++ "`"
  | .SeekRead, path => "failed to seek and read from `" ++ path ++ "`"
  | .SeekWrite, path => "failed to seek and write to `" ++ path ++ "`"
  | .ReadAt, path => "failed to read with offset from `" ++ path ++ "`"
  | .WriteAt, path => "failed to write with offset to `" ++ path ++ "`"

/-- `errors.rs` `impl fmt::Display for SourceDestError`: the message template
selected by the operation kind, applied to the stored from/to paths. -/
def SourceDestErrorKind.message : SourceDestErrorKind → String → String → String
  | .Copy, f, t => "failed to copy file from " ++ f ++ " to " ++ t
  | .HardLink, f, t => "failed to hardlink file from " ++ f ++ " to " ++ t
  | .Rename, f, t => "failed to rename file from " ++ f ++ " to " ++ t
  | .SoftLink, f, t => "failed to softlink file from " ++ f ++ " to " ++ t
  | .Symlink, f, t => "failed to symlink file from " ++ f ++ " to " ++ t
  | .SymlinkDir, f, t => "failed to symlink dir from " ++ f ++ " to " ++ t
  | .SymlinkFile, f, t => "failed to symlink file from " ++ f ++ " to " ++ t

/-- Rendered (`Display`) message of an error: a wrapped error displays its
payload's `Display`, a `lib.rs::Error` displays its stored message, a raw
platform error displays the platform's own text (left abstract). -/
def IoError.render : IoError → String
  | .raw _ => "os error"
  | .single _ k _ path => k.message path
  | .dual _ k _ f t => k.message f t
  | .lib _ _ msg => msg

/-- `StdError::source()` of the wrapped payload: every payload constructor
stores the original low-level error and returns it; a raw platform error has
no further source. -/
def IoError.sourceOf? : IoError → Option IoError
  | .raw _ => none
  | .single _ _ s _ => some s
  | .dual _ _ s _ _ => some s
  | .lib _ s _ => some s

/-- `StdError::cause()` of the wrapped payload: the source delegates
(`fn cause(&self) { self.source() }` in `errors.rs` and `lib.rs`). -/
def IoError.causeOf? : IoError → Option IoError :=
  IoError.sourceOf?

/-- The path(s) carried by the top-level contextual payload of an error. -/
def IoError.topPaths : IoError → List String
  | .raw _ => []
  | .single _ _ _ p => [p]
  | .dual _ _ _ f t => [f, t]
  | .lib _ _ _ => []

/-- Rendered message of the error channel of a result ("" on success). -/
def errRender {α : Type} : Except IoError α → String
  | .error e => e.render
  | .ok _ => ""

/-- The io::ErrorKind of the error channel of a result (`none` on success). -/
def errIoKind? {α : Type} : Except IoError α → Option IoErrorKind
  | .error e => some e.kind
  | .ok _ => none

/-! ## Platform model

The platform filesystem is modelled as an association list from path to file
contents (bytes as `Nat`).  Only the behavior the claims depend on is
modelled: `std::fs::File::open` fails with the platform's NotFound error on
an absent path, and `std::fs::File::create` (truncate-or-create, in a
writable location) succeeds.  State mutation by `create` is irrelevant to the
claims and omitted: only the result channel is modelled. -/

/-- On-disk state: which paths exist and what bytes they hold. -/
abbrev FsState := List (String × List Nat)

/-- Contents of the file at a path, if it exists. -/
def FsState.get? : FsState → String → Option (List Nat)
  | [], _ => none
  | (q, c) :: rest, p => if q = p then some c else FsState.get? rest p

/-- A platform file handle (`std::fs::File`), identified by the path it was
opened on. -/
structure StdFile : Type where
  path : String
deriving DecidableEq

/-- Platform primitive `std::fs::File::open`: read-only open; fails with the
platform's NotFound category when the path does not exist. -/
def stdOpen (fs : FsState) (p : String) : Except IoError StdFile :=
  match fs.get? p with
  | some _ => .ok ⟨p⟩
  | none => .error (.raw .NotFound)

/-- Platform primitive `std::fs::File::create`: write mode,
truncate-or-create; succeeds in a writable location regardless of whether the
path already exists. -/
def stdCreate (_fs : FsState) (p : String) : Except IoError StdFile :=
  .ok ⟨p⟩

/-! ## `file.rs` facade (current snapshot, `errors.rs` error model) -/

/-- `file.rs` `File`: a platform handle plus the path used to obtain it. -/
structure File : Type where
  file : StdFile
  path : String
deriving DecidableEq

/-- `file.rs` `File::open`: delegates to `fs::File::open`; on failure wraps
with `ErrorKind::OpenFile` and the supplied path. -/
def File.open' (fs : FsState) (p : String) : Except IoError File :=
  match stdOpen fs p with
  | .ok file => .ok ⟨file, p⟩
  | .error source => .error (Error.build source .OpenFile p)

/-- `file.rs` `File::create`: delegates to `fs::File::create`; on failure
wraps with `ErrorKind::CreateFile` and the supplied path. -/
def File.create (fs : FsState) (p : String) : Except IoError File :=
  match stdCreate fs p with
  | .ok file => .ok ⟨file, p⟩
  | .error source => .error (Error.build source .CreateFile p)

/-- `file.rs` `File::from_options`: the platform call `options.open(path)` is
external, so its result is the parameter; on failure the wrap uses
`ErrorKind::OpenFile` (not CreateFile), whatever the options were. -/
def File.from_options (stdResult : Except IoError StdFile) (p : String) :
    Except IoError File :=
  match stdResult with
  | .ok file => .ok ⟨file, p⟩
  | .error source => .error (Error.build source .OpenFile p)

/-- `file.rs` `File::error`: wrap an error with this handle's stored path. -/
def File.mkError (f : File) (source : IoError) (k : ErrorKind) : IoError :=
  Error.build source k f.path

/-! ## `lib.rs` facade (historical v1.0.1 snapshot, message-string errors) -/

/-- `lib.rs` `File`: a platform handle plus the path used to obtain it. -/
structure LibFile : Type where
  file : StdFile
  path : String
deriving DecidableEq

/-- `lib.rs` `Error`: a raw error plus a pre-rendered message. -/
structure LibError : Type where
  source : IoError
  message : String
deriving DecidableEq

/-- `lib.rs` `Error::new`. -/
def LibError.new (source : IoError) (message : String) : LibError :=
  ⟨source, message⟩

/-- `lib.rs` `Error::into_io_error`:
`io::Error::new(self.source.kind(), self)`. -/
def LibError.into_io_error (e : LibError) : IoError :=
  .lib e.source.kind e.source e.message

/-- `lib.rs` `Error::source` accessor (also what `source()` returns). -/
def LibError.sourceAcc (e : LibError) : IoError :=
  e.source

/-- `lib.rs` `Error::cause()` delegates to `source()`. -/
def LibError.causeAcc (e : LibError) : IoError :=
  e.sourceAcc

/-- `lib.rs` `File::open`: delegates to `std::fs::File::open`; on failure the
message is rendered eagerly. -/
def libFileOpen (fs : FsState) (p : String) : Except LibError LibFile :=
  match stdOpen fs p with
  | .ok file => .ok ⟨file, p⟩
  | .error e => .error (LibError.new e ("failed to open file `" ++ p ++ "`"))

/-- `lib.rs` `File::create` (lines 43-55): the body calls
`std::fs::File::open(path.as_ref())` — the read-only open primitive — while
the error message says "failed to create file".  Transcribed as written. -/
def libFileCreate (fs : FsState) (p : String) : Except LibError LibFile :=
  match stdOpen fs p with
  | .ok file => .ok ⟨file, p⟩
  | .error e => .error (LibError.new e ("failed to create file `" ++ p ++ "`"))

/-- `lib.rs` `File::from_options`: delegates to `options.open(path)` (result
passed as parameter); failure message is "failed to open file". -/
def libFileFromOptions (stdResult : Except IoError StdFile) (p : String) :
    Except LibError LibFile :=
  match stdResult with
  | .ok file => .ok ⟨file, p⟩
  | .error e => .error (LibError.new e ("failed to open file `" ++ p ++ "`"))

/-! ## Directory iteration (`dir.rs` and `async_fs/read_dir.rs`)

The inner platform iterator/stream is modelled by the list of results it has
yet to produce; each produced item is either a platform directory entry or a
raw platform error. -/

/-- A platform directory entry (`std::fs::DirEntry`), with its full path. -/
structure StdDirEntry : Type where
  path : String
deriving DecidableEq

/-- `dir.rs` `DirEntry`: wraps the platform entry. -/
structure DirEntry : Type where
  inner : StdDirEntry
deriving DecidableEq

/-- `dir.rs` `DirEntry::path`: the entry's own full path. -/
def DirEntry.path (d : DirEntry) : String :=
  d.inner.path

/-- `dir.rs` `DirEntry::metadata`: the platform call is external (result
passed as parameter); failures wrap with `ErrorKind::Metadata` and the
entry's own path. -/
def DirEntry.metadata {α : Type} (d : DirEntry) (stdResult : Except IoError α) :
    Except IoError α :=
  stdResult.mapError (fun source => Error.build source .Metadata d.path)

/-- `dir.rs` `DirEntry::file_type`: failures wrap with `ErrorKind::Metadata`
and the entry's own path. -/
def DirEntry.file_type {α : Type} (d : DirEntry) (stdResult : Except IoError α) :
    Except IoError α :=
  stdResult.mapError (fun source => Error.build source .Metadata d.path)

/-- `dir.rs` `ReadDir`: the inner platform iterator plus the parent
directory's path. -/
structure ReadDir : Type where
  inner : List (Except IoError StdDirEntry)
  path : String

/-- `dir.rs` `impl Iterator for ReadDir`, `next`: takes the inner iterator's
next item; a produced error is wrapped with `ErrorKind::ReadDir` and the
parent directory's path; a produced entry is wrapped into `DirEntry`. -/
def ReadDir.next : ReadDir → Option (Except IoError DirEntry) × ReadDir
  | ⟨[], p⟩ => (none, ⟨[], p⟩)
  | ⟨r :: rest, p⟩ =>
    (some (match r with
      | .ok entry => .ok ⟨entry⟩
      | .error source => .error (Error.build source .ReadDir p)), ⟨rest, p⟩)

/-- `async_fs/read_dir.rs` `ReadDir` stream: inner stream plus parent path. -/
structure AsyncReadDir : Type where
  inner : List (Except IoError StdDirEntry)
  path : String

/-- `async_fs/read_dir.rs` `impl Stream for ReadDir`, `poll_next` (the ready
outcome): a produced error is wrapped with `ErrorKind::ReadDir` and the parent
directory's path; `None` ends the stream. -/
def AsyncReadDir.poll_next : AsyncReadDir → Option (Except IoError DirEntry) × AsyncReadDir
  | ⟨[], p⟩ => (none, ⟨[], p⟩)
  | ⟨.ok entry :: rest, p⟩ => (some (.ok ⟨entry⟩), ⟨rest, p⟩)
  | ⟨.error err :: rest, p⟩ =>
    (some (.error (Error.build err .ReadDir p)), ⟨rest, p⟩)

/-- `async_fs/read_dir.rs` `DirEntry::metadata`: wraps with
`ErrorKind::Metadata` and the entry's own path. -/
def DirEntry.asyncMetadata {α : Type} (d : DirEntry) (stdResult : Except IoError α) :
    Except IoError α :=
  stdResult.mapError (fun err => Error.build err .Metadata d.path)

/-! ## Streaming operations via owned vs borrowed handles (`file.rs`)

Each streaming method delegates the call to the underlying platform handle
(the same handle for `File` and for `&File`); the platform call's result is
the parameter.  The owned (`impl ... for File`) and borrowed
(`impl ... for &'a File`) implementations are transcribed separately. -/

/-- `file.rs` `impl Read for File`, `read`. -/
def File.readOwned {α : Type} (f : File) (stdResult : Except IoError α) :
    Except IoError α :=
  stdResult.mapError (fun source => f.mkError source .Read)

/-- `file.rs` `impl Read for &File`, `read`. -/
def File.readBorrowed {α : Type} (f : File) (stdResult : Except IoError α) :
    Except IoError α :=
  stdResult.mapError (fun source => f.mkError source .Read)

/-- `file.rs` `impl Read for File`, `read_vectored`. -/
def File.readVectoredOwned {α : Type} (f : File) (stdResult : Except IoError α) :
    Except IoError α :=
  stdResult.mapError (fun source => f.mkError source .Read)

/-- `file.rs` `impl Read for &File`, `read_vectored`. -/
def File.readVectoredBorrowed {α : Type} (f : File) (stdResult : Except IoError α) :
    Except IoError α :=
  stdResult.mapError (fun source => f.mkError source .Read)

/-- `file.rs` `impl Seek for File`, `seek`. -/
def File.seekOwned {α : Type} (f : File) (stdResult : Except IoError α) :
    Except IoError α :=
  stdResult.mapError (fun source => f.mkError source .Seek)

/-- `file.rs` `impl Seek for &File`, `seek`. -/
def File.seekBorrowed {α : Type} (f : File) (stdResult : Except IoError α) :
    Except IoError α :=
  stdResult.mapError (fun source => f.mkError source .Seek)

/-- `file.rs` `impl Write for File`, `write`. -/
def File.writeOwned {α : Type} (f : File) (stdResult : Except IoError α) :
    Except IoError α :=
  stdResult.mapError (fun source => f.mkError source .Write)

/-- `file.rs` `impl Write for &File`, `write`. -/
def File.writeBorrowed {α : Type} (f : File) (stdResult : Except IoError α) :
    Except IoError α :=
  stdResult.mapError (fun source => f.mkError source .Write)

/-- `file.rs` `impl Write for File`, `write_vectored`. -/
def File.writeVectoredOwned {α : Type} (f : File) (stdResult : Except IoError α) :
    Except IoError α :=
  stdResult.mapError (fun source => f.mkError source .Write)

/-- `file.rs` `impl Write for &File`, `write_vectored`. -/
def File.writeVectoredBorrowed {α : Type} (f : File) (stdResult : Except IoError α) :
    Except IoError α :=
  stdResult.mapError (fun source => f.mkError source .Write)

/-- `file.rs` `impl Write for File`, `flush`. -/
def File.flushOwned (f : File) (stdResult : Except IoError Unit) :
    Except IoError Unit :=
  stdResult.mapError (fun source => f.mkError source .Flush)

/-- `file.rs` `impl Write for &File`, `flush`. -/
def File.flushBorrowed (f : File) (stdResult : Except IoError Unit) :
    Except IoError Unit :=
  stdResult.mapError (fun source => f.mkError source .Flush)

/-- `lib.rs` `impl Read for &File`, `read`: wraps into a `lib.rs::Error` with
an eagerly rendered message, then into `io::Error` via `into_io_error`. -/
def LibFile.readBorrowed {α : Type} (f : LibFile) (stdResult : Except IoError α) :
    Except IoError α :=
  stdResult.mapError (fun e =>
    (LibError.new e ("failed to read from file `" ++ f.path ++ "`")).into_io_error)

/-- `lib.rs` `impl Read for File`, `read`: delegates to the borrowed
implementation (`(&mut &*self).read(buf)`). -/
def LibFile.readOwned {α : Type} (f : LibFile) (stdResult : Except IoError α) :
    Except IoError α :=
  f.readBorrowed stdResult

/-! ## Dual-path operations -/

/-- `os/unix.rs` `symlink(original, link)`: delegates to
`std::os::unix::fs::symlink(original, link)`; the failure wrap is
`SourceDestError::build(err, Symlink, link, original)` — transcribed with the
argument order as written in the source. -/
def osUnixSymlink (stdResult : Except IoError Unit) (original link : String) :
    Except IoError Unit :=
  stdResult.mapError (fun err => SourceDestError.build err .Symlink link original)

/-- `os/windows.rs` `symlink_dir(original, link)`: failure wrap is
`SourceDestError::build(err, SymlinkDir, link, original)` as written. -/
def osWindowsSymlinkDir (stdResult : Except IoError Unit) (original link : String) :
    Except IoError Unit :=
  stdResult.mapError (fun err => SourceDestError.build err .SymlinkDir link original)

/-- `os/windows.rs` `symlink_file(original, link)`: failure wrap is
`SourceDestError::build(err, SymlinkFile, link, original)` as written. -/
def osWindowsSymlinkFile (stdResult : Except IoError Unit) (original link : String) :
    Except IoError Unit :=
  stdResult.mapError (fun err => SourceDestError.build err .SymlinkFile link original)

/-- `async_fs/unix.rs` `symlink(src, dst)`: failure wrap is
`SourceDestError::build(err, Symlink, src, dst)`. -/
def asyncUnixSymlink (stdResult : Except IoError Unit) (src dst : String) :
    Except IoError Unit :=
  stdResult.mapError (fun err => SourceDestError.build err .Symlink src dst)

/-- `async_fs/windows.rs` `symlink_dir(src, dst)`. -/
def asyncWindowsSymlinkDir (stdResult : Except IoError Unit) (src dst : String) :
    Except IoError Unit :=
  stdResult.mapError (fun err => SourceDestError.build err .SymlinkDir src dst)

/-- `async_fs/windows.rs` `symlink_file(src, dst)`. -/
def asyncWindowsSymlinkFile (stdResult : Except IoError Unit) (src dst : String) :
    Except IoError Unit :=
  stdResult.mapError (fun err => SourceDestError.build err .SymlinkFile src dst)

/-- `async_fs/mod.rs` `copy(src, dst)`: failure wrap is
`SourceDestError::build(err, Copy, src, dst)`. -/
def asyncCopy (stdResult : Except IoError Nat) (src dst : String) :
    Except IoError Nat :=
  stdResult.mapError (fun err => SourceDestError.build err .Copy src dst)

/-- `async_fs/mod.rs` `rename(src, dst)`. -/
def asyncRename (stdResult : Except IoError Unit) (src dst : String) :
    Except IoError Unit :=
  stdResult.mapError (fun err => SourceDestError.build err .Rename src dst)

/-- `async_fs/mod.rs` `hard_link(src, dst)`. -/
def asyncHardLink (stdResult : Except IoError Unit) (src dst : String) :
    Except IoError Unit :=
  stdResult.mapError (fun err => SourceDestError.build err .HardLink src dst)

/-! ## Whole-file read facades (`lib.rs`) -/

/-- `lib.rs` `initial_buffer_size`:
`file.file().metadata().map(|m| m.len() as usize + 1).unwrap_or(0)` —
the probe's failure is swallowed and yields capacity 0. -/
def initial_buffer_size (metadataResult : Except IoError Nat) : Nat :=
  match metadataResult with
  | .ok len => len + 1
  | .error _ => 0

/-- `lib.rs` `read`: open the file (error propagated), size the buffer by the
best-effort metadata probe, then `read_to_end` (already-wrapped result passed
as parameter).  Returns the initial buffer capacity paired with the result,
so the probe's influence on each can be stated. -/
def readModel (openResult : Except IoError LibFile) (probe : Except IoError Nat)
    (readToEndResult : Except IoError (List Nat)) : Nat × Except IoError (List Nat) :=
  match openResult with
  | .error e => (0, .error e)
  | .ok _f =>
    let cap := initial_buffer_size probe
    match readToEndResult with
    | .error e => (cap, .error e)
    | .ok bytes => (cap, .ok bytes)

/-! ## Open options (`open_options.rs`, `file.rs`, `async_fs/open_options.rs`)

The option set is a record of the six standard flags; the platform
open-with-options primitive is a function parameter from the configured
options and path to a result. -/

/-- The configured flags of an `OpenOptions` value. -/
structure OpenOptionsCfg : Type where
  readFlag : Bool
  writeFlag : Bool
  appendFlag : Bool
  truncateFlag : Bool
  createFlag : Bool
  createNewFlag : Bool
deriving DecidableEq

/-- `open_options.rs` `OpenOptions::open`: delegates to
`crate::File::from_options(path, self.options())`. -/
def OpenOptions.open' (plat : OpenOptionsCfg → String → Except IoError StdFile)
    (o : OpenOptionsCfg) (p : String) : Except IoError File :=
  File.from_options (plat o p) p

/-- `async_fs/file.rs` `File`: async handle plus stored path. -/
structure AsyncFile : Type where
  file : StdFile
  path : String
deriving DecidableEq

/-- `async_fs/file.rs` `File::from_parts`. -/
def AsyncFile.from_parts (file : StdFile) (p : String) : AsyncFile :=
  ⟨file, p⟩

/-- `async_fs/open_options.rs` `OpenOptions::open`: on failure of the
platform call the wrap is `Error::build(err, ErrorKind::OpenFile, path)`,
then `File::from_parts` on success. -/
def AsyncOpenOptions.open' (plat : OpenOptionsCfg → String → Except IoError StdFile)
    (o : OpenOptionsCfg) (p : String) : Except IoError AsyncFile :=
  match plat o p with
  | .error err => .error (Error.build err .OpenFile p)
  | .ok file => .ok (AsyncFile.from_parts file p)

/-! ## Claims -/

/-- Claim C1 (code evaluated at the failing input): the synchronous platform
symlink wrappers pass the paths to `SourceDestError::build` in swapped order,
so the rendered message names the link first and the documented source
(`original`/`src`) second — while the asynchronous symlink wrappers and the
other dual-path operations (e.g. copy) name the documented source first.  The
claim that every dual-path operation renders the documented from/to order is
therefore violated by `os/unix.rs::symlink` and the `os/windows.rs` symlink
variants. -/
theorem c1_sync_symlink_swaps_from_and_to :
    errRender (osUnixSymlink (.error (.raw .AlreadyExists)) "a.txt" "b.txt")
      = "failed to symlink file from b.txt to a.txt"
  ∧ errRender (asyncUnixSymlink (.error (.raw .AlreadyExists)) "a.txt" "b.txt")
      = "failed to symlink file from a.txt to b.txt"
  ∧ errRender (osWindowsSymlinkDir (.error (.raw .AlreadyExists)) "a.txt" "b.txt")
      = "failed to symlink dir from b.txt to a.txt"
  ∧ errRender (asyncWindowsSymlinkDir (.error (.raw .AlreadyExists)) "a.txt" "b.txt")
      = "failed to symlink dir from a.txt to b.txt"
  ∧ errRender (asyncCopy (.error (.raw .NotFound)) "a.txt" "b/c.txt")
      = "failed to copy file from a.txt to b/c.txt" :=
  ⟨rfl, rfl, rfl, rfl, rfl⟩

/-- Claim C2 (code evaluated at the failing input): the `lib.rs` snapshot's
`File::create` delegates to the read-only open primitive instead of the
create primitive: on a path that does not exist it fails with the platform's
NotFound error (message "failed to create file `x.txt`"), although the create
primitive itself would succeed there — as the `file.rs` snapshot's
`File::create`, which does call the create primitive, demonstrates. -/
theorem c2_lib_create_delegates_to_open :
    libFileCreate [] "x.txt"
      = .error (LibError.new (.raw .NotFound) "failed to create file `x.txt`")
  ∧ stdCreate [] "x.txt" = .ok ⟨"x.txt"⟩
  ∧ File.create [] "x.txt" = .ok ⟨⟨"x.txt"⟩, "x.txt"⟩ :=
  ⟨rfl, rfl, rfl⟩

/-- Claim C3: the wrapping constructors `Error::build`,
`SourceDestError::build` and `lib.rs`'s `Error::into_io_error` all produce an
`io::Error` whose `kind()` equals the kind of the original source error, so
catch-by-kind logic behaves identically on wrapped and unwrapped errors. -/
theorem c3_wrapping_preserves_io_error_kind (source : IoError) (k : ErrorKind)
    (sk : SourceDestErrorKind) (p f t m : String) :
    (Error.build source k p).kind = source.kind
  ∧ (SourceDestError.build source sk f t).kind = source.kind
  ∧ (LibError.new source m).into_io_error.kind = source.kind :=
  ⟨rfl, rfl, rfl⟩

/-- Claim C4: opening a path that does not exist on disk through the facade
returns the wrapped platform NotFound error; the rendered message is exactly
"failed to open file `<path>`", the wrapped error's classification is
NotFound, and the queryable cause is the raw NotFound platform error. -/
theorem c4_open_missing_path (fs : FsState) (p : String) (h : fs.get? p = none) :
    File.open' fs p = .error (Error.build (.raw .NotFound) .OpenFile p)
  ∧ errRender (File.open' fs p) = "failed to open file `" ++ p ++ "`"
  ∧ errIoKind? (File.open' fs p) = some .NotFound
  ∧ (Error.build (.raw .NotFound) .OpenFile p).sourceOf? = some (.raw .NotFound) := by
  have hstd : stdOpen fs p = .error (.raw .NotFound) := by
    unfold stdOpen
    rw [h]
  have hopen : File.open' fs p = .error (Error.build (.raw .NotFound) .OpenFile p) := by
    unfold File.open'
    rw [hstd]
  refine ⟨hopen, ?_, ?_, rfl⟩
  · rw [hopen]
    rfl
  · rw [hopen]
    rfl

/-- Claim C4, witness: the empty filesystem does not contain "missing.txt",
and opening it produces exactly the NotFound-classified wrapped error with
message "failed to open file `missing.txt`". -/
theorem c4_open_missing_path_witness :
    File.open' [] "missing.txt"
      = .error (Error.build (.raw .NotFound) .OpenFile "missing.txt")
  ∧ errRender (File.open' [] "missing.txt") = "failed to open file `" ++ "missing.txt" ++ "`"
  ∧ errIoKind? (File.open' [] "missing.txt") = some .NotFound
  ∧ (Error.build (.raw .NotFound) .OpenFile "missing.txt").sourceOf?
      = some (.raw .NotFound) :=
  c4_open_missing_path [] "missing.txt" rfl

/-- Claim C5, counterexample: the empty path is reachable through the public
facade (`File::open("")`), and the contextual error constructed there carries
the empty path — so it is not true that every constructed instance carries a
non-empty path. -/
theorem c5_empty_path_reaches_constructor :
    File.open' [] "" = .error (.single .NotFound .OpenFile (.raw .NotFound) "")
  ∧ ((IoError.single .NotFound .OpenFile (.raw .NotFound) "").topPaths.all
      (fun q => !q.isEmpty)) = false :=
  ⟨rfl, rfl⟩

/-- Claim C5 as amended: every constructed contextual error carries exactly
the caller-supplied path (two for dual-path); the carried paths are non-empty
whenever the caller-supplied paths are non-empty (a caller that supplies the
empty path gets an instance carrying the empty path). -/
theorem c5_paths_stored_verbatim (source : IoError) (k : ErrorKind)
    (sk : SourceDestErrorKind) (p f t : String)
    (hp : p ≠ "") (hf : f ≠ "") (ht : t ≠ "") :
    (Error.build source k p).topPaths = [p]
  ∧ (SourceDestError.build source sk f t).topPaths = [f, t]
  ∧ (∀ q ∈ (Error.build source k p).topPaths, q ≠ "")
  ∧ (∀ q ∈ (SourceDestError.build source sk f t).topPaths, q ≠ "") := by
  refine ⟨rfl, rfl, ?_, ?_⟩
  · intro q hq
    simp only [Error.build, IoError.topPaths, List.mem_singleton] at hq
    simpa [hq] using hp
  · intro q hq
    simp only [SourceDestError.build, IoError.topPaths, List.mem_cons,
      List.mem_singleton, List.not_mem_nil, or_false] at hq
    rcases hq with hq | hq
    · simpa [hq] using hf
    · simpa [hq] using ht

/-- Claim C5, witness for the amended statement at concrete non-empty
paths. -/
theorem c5_paths_stored_verbatim_witness :
    (Error.build (.raw .NotFound) .OpenFile "a").topPaths = ["a"]
  ∧ (SourceDestError.build (.raw .NotFound) .Copy "b" "c").topPaths = ["b", "c"]
  ∧ (∀ q ∈ (Error.build (.raw .NotFound) .OpenFile "a").topPaths, q ≠ "")
  ∧ (∀ q ∈ (SourceDestError.build (.raw .NotFound) .Copy "b" "c").topPaths, q ≠ "") :=
  c5_paths_stored_verbatim (.raw .NotFound) .OpenFile .Copy "a" "b" "c"
    (by decide) (by decide) (by decide)

/-- Claim C6: a failure produced by directory iteration (synchronous `next`
and asynchronous `poll_next`) is wrapped with the ReadDir kind and the parent
directory's path, while a failure of a per-entry query
(`DirEntry::metadata`, `DirEntry::file_type`, and the async entry metadata)
is wrapped with that entry's own full path. -/
theorem c6_read_dir_error_attribution (dirPath entryPath : String)
    (err merr : IoError) (rest : List (Except IoError StdDirEntry)) :
    (ReadDir.next ⟨.error err :: rest, dirPath⟩).1
      = some (.error (Error.build err .ReadDir dirPath))
  ∧ (Error.build err .ReadDir dirPath).topPaths = [dirPath]
  ∧ (AsyncReadDir.poll_next ⟨.error err :: rest, dirPath⟩).1
      = some (.error (Error.build err .ReadDir dirPath))
  ∧ DirEntry.metadata ⟨⟨entryPath⟩⟩ (Except.error merr : Except IoError Unit)
      = .error (Error.build merr .Metadata entryPath)
  ∧ DirEntry.file_type ⟨⟨entryPath⟩⟩ (Except.error merr : Except IoError Unit)
      = .error (Error.build merr .Metadata entryPath)
  ∧ DirEntry.asyncMetadata ⟨⟨entryPath⟩⟩ (Except.error merr : Except IoError Unit)
      = .error (Error.build merr .Metadata entryPath)
  ∧ (Error.build merr .Metadata entryPath).topPaths = [entryPath] :=
  ⟨rfl, rfl, rfl, rfl, rfl, rfl, rfl⟩

/-- Claim C7: for each streaming operation (read, read_vectored, seek, write,
write_vectored, flush) and every outcome of the underlying platform call, the
owned-handle implementation and the borrowed-handle implementation return the
same result; on failure the wrap names the same operation kind, the same
message template and the handle's stored path (shown explicitly for read).
The historical `lib.rs` owned implementation delegates to the borrowed one,
so they agree as well. -/
theorem c7_owned_borrowed_equal (f : File) (lf : LibFile)
    (rn : Except IoError Nat) (ru : Except IoError Unit) (e : IoError) :
    File.readOwned f rn = File.readBorrowed f rn
  ∧ File.readVectoredOwned f rn = File.readVectoredBorrowed f rn
  ∧ File.seekOwned f rn = File.seekBorrowed f rn
  ∧ File.writeOwned f rn = File.writeBorrowed f rn
  ∧ File.writeVectoredOwned f rn = File.writeVectoredBorrowed f rn
  ∧ File.flushOwned f ru = File.flushBorrowed f ru
  ∧ LibFile.readOwned lf rn = LibFile.readBorrowed lf rn
  ∧ File.readOwned f (Except.error e : Except IoError Nat)
      = .error (Error.build e .Read f.path)
  ∧ File.readBorrowed f (Except.error e : Except IoError Nat)
      = .error (Error.build e .Read f.path) :=
  ⟨rfl, rfl, rfl, rfl, rfl, rfl, rfl, rfl, rfl⟩

/-- Claim C8: the pre-read metadata probe of the whole-file read facade is
best-effort: the returned result is the same whatever the probe's outcome; a
failed probe is swallowed and yields initial buffer capacity 0, and a
successful probe sizes the capacity from the probed file length. -/
theorem c8_probe_is_best_effort (openResult : Except IoError LibFile)
    (probe probe2 : Except IoError Nat) (readResult : Except IoError (List Nat))
    (lf : LibFile) (len : Nat) (e : IoError) :
    (readModel openResult probe readResult).2 = (readModel openResult probe2 readResult).2
  ∧ initial_buffer_size (.error e) = 0
  ∧ initial_buffer_size (.ok len) = len + 1
  ∧ (readModel (.ok lf) (.error e) readResult).1 = 0
  ∧ (readModel (.ok lf) (.ok len) readResult).1 = len + 1 := by
  refine ⟨?_, rfl, rfl, ?_, ?_⟩
  · cases openResult with
    | error err => rfl
    | ok lf2 => cases readResult with
      | error err => rfl
      | ok bytes => rfl
  · cases readResult with
    | error err => rfl
    | ok bytes => rfl
  · cases readResult with
    | error err => rfl
    | ok bytes => rfl

/-- Claim C9: for every constructed contextual error — single-path
(`Error::build`), dual-path (`SourceDestError::build`) and the historical
`lib.rs` error — the standard chain accessors `source()` and `cause()` both
return the original low-level error. -/
theorem c9_source_and_cause_return_original (source : IoError) (k : ErrorKind)
    (sk : SourceDestErrorKind) (p f t m : String) :
    (Error.build source k p).sourceOf? = some source
  ∧ (Error.build source k p).causeOf? = some source
  ∧ (SourceDestError.build source sk f t).sourceOf? = some source
  ∧ (SourceDestError.build source sk f t).causeOf? = some source
  ∧ (LibError.new source m).sourceAcc = source
  ∧ (LibError.new source m).causeAcc = source
  ∧ (LibError.new source m).into_io_error.sourceOf? = some source
  ∧ (LibError.new source m).into_io_error.causeOf? = some source :=
  ⟨rfl, rfl, rfl, rfl, rfl, rfl, rfl, rfl⟩

/-- Claim C10: whenever the platform open-with-options call fails — for every
options configuration, including ones that request creation via create or
create_new — both `OpenOptions::open` (which delegates through
`File::from_options`) and the asynchronous `OpenOptions::open` wrap the error
with the OpenFile kind, rendering "failed to open file `<path>`"; the
historical `lib.rs` `File::from_options` renders the same message. -/
theorem c10_options_open_always_open_file_kind
    (plat : OpenOptionsCfg → String → Except IoError StdFile)
    (o : OpenOptionsCfg) (p : String) (err : IoError)
    (h : plat o p = .error err) :
    OpenOptions.open' plat o p = .error (Error.build err .OpenFile p)
  ∧ errRender (OpenOptions.open' plat o p) = "failed to open file `" ++ p ++ "`"
  ∧ AsyncOpenOptions.open' plat o p = .error (Error.build err .OpenFile p)
  ∧ libFileFromOptions (plat o p) p
      = .error (LibError.new err ("failed to open file `" ++ p ++ "`")) := by
  have hsync : OpenOptions.open' plat o p = .error (Error.build err .OpenFile p) := by
    unfold OpenOptions.open' File.from_options
    rw [h]
  have hasync : AsyncOpenOptions.open' plat o p = .error (Error.build err .OpenFile p) := by
    unfold AsyncOpenOptions.open'
    rw [h]
  have hlib : libFileFromOptions (plat o p) p
      = .error (LibError.new err ("failed to open file `" ++ p ++ "`")) := by
    unfold libFileFromOptions
    rw [h]
  refine ⟨hsync, ?_, hasync, hlib⟩
  rw [hsync]
  rfl

/-- Claim C10, witness: a platform that rejects the call with AlreadyExists
(the failure mode of create_new on an existing file), options with write and
create_new set, path "new.txt": both facades wrap with the OpenFile kind and
render "failed to open file `new.txt`". -/
theorem c10_options_open_always_open_file_kind_witness :
    OpenOptions.open' (fun _ _ => .error (.raw .AlreadyExists))
        ⟨false, true, false, false, false, true⟩ "new.txt"
      = .error (Error.build (.raw .AlreadyExists) .OpenFile "new.txt")
  ∧ errRender (OpenOptions.open' (fun _ _ => .error (.raw .AlreadyExists))
        ⟨false, true, false, false, false, true⟩ "new.txt")
      = "failed to open file `" ++ "new.txt" ++ "`"
  ∧ AsyncOpenOptions.open' (fun _ _ => .error (.raw .AlreadyExists))
        ⟨false, true, false, false, false, true⟩ "new.txt"
      = .error (Error.build (.raw .AlreadyExists) .OpenFile "new.txt")
  ∧ libFileFromOptions
        ((fun (_ : OpenOptionsCfg) (_ : String) =>
          (Except.error (.raw .AlreadyExists) : Except IoError StdFile))
          ⟨false, true, false, false, false, true⟩ "new.txt") "new.txt"
      = .error (LibError.new (.raw .AlreadyExists)
          ("failed to open file `" ++ "new.txt" ++ "`")) :=
  c10_options_open_always_open_file_kind (fun _ _ => .error (.raw .AlreadyExists))
    ⟨false, true, false, false, false, true⟩ "new.txt" (.raw .AlreadyExists) rfl
